import Mathlib

/-!
Verification of the SMIRT user manager (src/js/user-manager.js).

The JavaScript class `UserManager` holds a `Map` of user records keyed by
username, a cached current session, and two localStorage entries (one for the
serialized user array, one for the serialized session).  We embed it as a pure
state-passing model:

* JS `Map` insertion-ordered semantics become an association list
  `List (String × User)` with `mapSet` (update in place if the key exists,
  append otherwise).
* `localStorage` becomes two fields of the state: `storedUsers` (absent,
  corrupt, or a parsed array of records) and `storedSession`.
* `Date.now()` and `new Date().toISOString()` become an explicit `now : Nat`
  argument; ISO timestamp strings are modelled as the `Nat` clock value that
  produced them.
* The bootstrap `fetch('./users.json')` becomes an explicit `FetchOutcome`
  argument to `loadUsers`.
* Methods that mutate `this` return a `result × UMState` pair.

Failure results `{ success: false, message: m }` are modelled as
`Except String _` carrying the exact message string from the source.
-/

/-- Session snapshot: the object built in `authenticate` and stored both in
`this.currentUser` and under the session localStorage key. -/
structure Session where
  username : String
  displayName : String
  role : String
  loginTime : Nat
  expiresAt : Nat
deriving Repr, DecidableEq

/-- User record as stored in `this.users`.  `permissions` defaults to the
empty list where the source leaves the field absent; `createdAt` and
`updatedAt` are ISO strings in the source, modelled by the clock value. -/
structure User where
  username : String
  password : String
  displayName : String
  role : String
  permissions : List String
  active : Bool
  createdAt : Nat
  updatedAt : Option Nat
deriving Repr, DecidableEq

/-- Contents of the users localStorage entry: `absent` for a missing or empty
string (falsy in the source), `corrupt` for a string `JSON.parse` rejects,
`good` for a parsed array of records. -/
inductive StoredUsers where
  | absent
  | corrupt
  | good (records : List User)
deriving Repr, DecidableEq

/-- The mutable state of a `UserManager` instance together with its two
localStorage slots. -/
structure UMState where
  users : List (String × User)
  currentUser : Option Session
  storedUsers : StoredUsers
  storedSession : Option Session
deriving Repr, DecidableEq

/-- `this.sessionDuration = 24 * 60 * 60 * 1000` (24 hours in milliseconds). -/
def sessionDuration : Nat := 24 * 60 * 60 * 1000

/-- JS `Map.prototype.set`: replace in place when the key is present (keeping
insertion order), append otherwise. -/
def mapSet (m : List (String × User)) (k : String) (v : User) :
    List (String × User) :=
  if (m.lookup k).isSome then
    m.map (fun p => if p.1 = k then (k, v) else p)
  else
    m ++ [(k, v)]

/-- `saveUsers`: serialize `Array.from(this.users.values())` into the users
localStorage entry.  The JSON write never fails in the model (the source
absorbs failures anyway). -/
def saveUsers (s : UMState) : UMState :=
  { s with storedUsers := .good (s.users.map Prod.snd) }

/-- The single default account seeded by `initializeDefaultUsers`. -/
def defaultAdmin (now : Nat) : User :=
  { username := "admin", password := "2977", displayName := "Amministratore",
    role := "admin", permissions := [], active := true, createdAt := now,
    updatedAt := none }

/-- `initializeDefaultUsers`: clear the registry, insert the default admin,
persist. -/
def initializeDefaultUsers (s : UMState) (now : Nat) : UMState :=
  saveUsers { s with users := [("admin", defaultAdmin now)] }

/-- Value part of one entry of the bootstrap payload `data.users`. -/
structure BootstrapUser where
  password : String
  displayName : String
  role : String
  permissions : Option (List String)
deriving Repr, DecidableEq

/-- Outcome of the bootstrap `fetch('./users.json')`:
`ok` with a parsed `data.users` mapping; `badPayload` for an ok response whose
body lacks a usable `users` object (the thrown TypeError is caught and control
falls through to the localStorage path); `httpError` for a non-ok status;
`networkError` for a rejected fetch. -/
inductive FetchOutcome where
  | ok (users : List (String × BootstrapUser))
  | badPayload
  | httpError
  | networkError
deriving Repr, DecidableEq

/-- Record built for one bootstrap entry: marked active, stamped with the
current clock, `permissions` defaulted to `[]` (`userData.permissions || []`). -/
def bootstrapRecord (username : String) (d : BootstrapUser) (now : Nat) :
    User :=
  { username := username, password := d.password,
    displayName := d.displayName, role := d.role,
    permissions := d.permissions.getD [], active := true, createdAt := now,
    updatedAt := none }

/-- The localStorage fallback path of `loadUsers` (second try block): a parsed
non-empty array re-keys each record by its `username` field; an absent entry,
a parse failure, or an array yielding zero users seeds the defaults. -/
def loadFromStore (s : UMState) (now : Nat) : UMState :=
  match s.storedUsers with
  | .good records =>
      let m := records.foldl (fun acc u => mapSet acc u.username u) []
      if m.length = 0 then initializeDefaultUsers s now
      else { s with users := m }
  | .absent => initializeDefaultUsers s now
  | .corrupt => initializeDefaultUsers s now

/-- `loadUsers`: on an ok fetch, replace the registry wholesale with the
payload entries and persist; every other outcome falls through to the
localStorage path. -/
def loadUsers (s : UMState) (outcome : FetchOutcome) (now : Nat) : UMState :=
  match outcome with
  | .ok entries =>
      let m := entries.foldl (fun acc e => mapSet acc e.1 (bootstrapRecord e.1 e.2 now)) []
      saveUsers { s with users := m }
  | .badPayload => loadFromStore s now
  | .httpError => loadFromStore s now
  | .networkError => loadFromStore s now

/-- Session built on successful authentication. -/
def issuedSession (user : User) (now : Nat) : Session :=
  { username := user.username, displayName := user.displayName,
    role := user.role, loginTime := now,
    expiresAt := now + sessionDuration }

/-- `authenticate(username, password)`: messages are the exact source strings
for user-not-found, user-inactive, and wrong-password; on success the new
session is cached and persisted. -/
def authenticate (s : UMState) (username password : String) (now : Nat) :
    Except String Session × UMState :=
  match s.users.lookup username with
  | none => (.error "Utente non trovato", s)
  | some user =>
      if user.active = false then (.error "Utente disattivato", s)
      else if user.password ≠ password then (.error "Password errata", s)
      else
        (.ok (issuedSession user now),
         { s with currentUser := some (issuedSession user now),
                  storedSession := some (issuedSession user now) })

/-- `logout`: clear the cached session and remove the persisted one. -/
def logout (s : UMState) : UMState :=
  { s with currentUser := none, storedSession := none }

/-- `isSessionValid`: no persisted session is invalid; a persisted session
with `now > expiresAt` triggers `logout()` and is invalid; otherwise the
expiry is extended to `now + sessionDuration`, re-persisted and cached. -/
def isSessionValid (s : UMState) (now : Nat) : Bool × UMState :=
  match s.storedSession with
  | none => (false, s)
  | some session =>
      if session.expiresAt < now then (false, logout s)
      else
        (true,
         { s with
             storedSession := some { session with expiresAt := now + sessionDuration },
             currentUser := some { session with expiresAt := now + sessionDuration } })

/-- `getCurrentUser`: the cached session when `isSessionValid()` holds, else
nothing. -/
def getCurrentUser (s : UMState) (now : Nat) : Option Session × UMState :=
  let r := isSessionValid s now
  if r.1 then (r.2.currentUser, r.2) else (none, r.2)

/-- Input of `addUser` (the `userData` object spread into the new record). -/
structure UserData where
  username : String
  password : String
  displayName : String
  role : String
  permissions : List String
deriving Repr, DecidableEq

/-- Record inserted by `addUser`: the input data with `active` forced to true
and a fresh `createdAt`. -/
def freshUser (d : UserData) (now : Nat) : User :=
  { username := d.username, password := d.password,
    displayName := d.displayName, role := d.role,
    permissions := d.permissions, active := true, createdAt := now,
    updatedAt := none }

/-- `addUser(userData)`: duplicate usernames are rejected with the source
message; otherwise the record is inserted and persisted. -/
def addUser (s : UMState) (d : UserData) (now : Nat) :
    Except String User × UMState :=
  if (s.users.lookup d.username).isSome then
    (.error "Utente già esistente", s)
  else
    (.ok (freshUser d now),
     saveUsers { s with users := mapSet s.users d.username (freshUser d now) })

/-- Partial update object passed to `updateUser`.  The source merges with a
dynamic spread `{...user, ...updates, updatedAt: now}`, so any own field of
the patch — including `username` and `createdAt` — overwrites the stored one. -/
structure UserPatch where
  username : Option String
  password : Option String
  displayName : Option String
  role : Option String
  permissions : Option (List String)
  active : Option Bool
  createdAt : Option Nat
deriving Repr, DecidableEq

/-- The all-absent patch. -/
def emptyPatch : UserPatch :=
  { username := none, password := none, displayName := none, role := none,
    permissions := none, active := none, createdAt := none }

/-- The shallow merge `{...user, ...updates, updatedAt: now}`. -/
def applyPatch (user : User) (patch : UserPatch) (now : Nat) : User :=
  { username := patch.username.getD user.username,
    password := patch.password.getD user.password,
    displayName := patch.displayName.getD user.displayName,
    role := patch.role.getD user.role,
    permissions := patch.permissions.getD user.permissions,
    active := patch.active.getD user.active,
    createdAt := patch.createdAt.getD user.createdAt,
    updatedAt := some now }

/-- `updateUser(username, updates)`: missing user is rejected with the source
message; otherwise the merged record is stored under the same key and
persisted. -/
def updateUser (s : UMState) (username : String) (patch : UserPatch)
    (now : Nat) : Except String User × UMState :=
  match s.users.lookup username with
  | none => (.error "Utente non trovato", s)
  | some user =>
      (.ok (applyPatch user patch now),
       saveUsers { s with users := mapSet s.users username (applyPatch user patch now) })

/-- `deactivateUser`: `updateUser(username, { active: false })`. -/
def deactivateUser (s : UMState) (username : String) (now : Nat) :
    Except String User × UMState :=
  updateUser s username { emptyPatch with active := some false } now

/-- `activateUser`: `updateUser(username, { active: true })`. -/
def activateUser (s : UMState) (username : String) (now : Nat) :
    Except String User × UMState :=
  updateUser s username { emptyPatch with active := some true } now

/-- `changePassword(username, oldPassword, newPassword)`. -/
def changePassword (s : UMState) (username oldPassword newPassword : String)
    (now : Nat) : Except String User × UMState :=
  match s.users.lookup username with
  | none => (.error "Utente non trovato", s)
  | some user =>
      if user.password ≠ oldPassword then
        (.error "Password attuale errata", s)
      else updateUser s username { emptyPatch with password := some newPassword } now

/-- Shape of one entry returned by `getAllUsers`: the source lists the six
fields username, displayName, role, active, createdAt, updatedAt explicitly —
neither `password` nor `permissions` appears in the projection. -/
structure PublicUser where
  username : String
  displayName : String
  role : String
  active : Bool
  createdAt : Nat
  updatedAt : Option Nat
deriving Repr, DecidableEq

/-- The projection `getAllUsers` applies to each stored record. -/
def publicView (user : User) : PublicUser :=
  { username := user.username, displayName := user.displayName,
    role := user.role, active := user.active, createdAt := user.createdAt,
    updatedAt := user.updatedAt }

/-- `getAllUsers`: admin-gated listing of all records through `publicView`. -/
def getAllUsers (s : UMState) (now : Nat) :
    Except String (List PublicUser) × UMState :=
  let r := getCurrentUser s now
  match r.1 with
  | none => (.error "Accesso negato", r.2)
  | some cu =>
      if cu.role ≠ "admin" then (.error "Accesso negato", r.2)
      else (.ok (r.2.users.map (fun p => publicView p.2)), r.2)

/-- `hasRole(role)`: the current user exists and has the given role. -/
def hasRole (s : UMState) (role : String) (now : Nat) : Bool × UMState :=
  let r := getCurrentUser s now
  ((match r.1 with
    | some cu => cu.role == role
    | none => false), r.2)

/-- `isAdmin`: `hasRole('admin')`. -/
def isAdmin (s : UMState) (now : Nat) : Bool × UMState :=
  hasRole s "admin" now

/-- Spec-side redacted projection, for comparison with `publicView`; from the
spec glossary: a copy of a user record with the password field removed — every
other field, permissions included, kept. -/
structure RedactedUser where
  username : String
  displayName : String
  role : String
  permissions : List String
  active : Bool
  createdAt : Nat
  updatedAt : Option Nat
deriving Repr, DecidableEq

/-- The spec's redaction: drop exactly the password field. -/
def specRedact (user : User) : RedactedUser :=
  { username := user.username, displayName := user.displayName,
    role := user.role, permissions := user.permissions,
    active := user.active, createdAt := user.createdAt,
    updatedAt := user.updatedAt }

/-- Registry wellformedness: distinct keys (a JS `Map` invariant of the
representation) and each record stored under its own username. -/
def usersWellFormed (m : List (String × User)) : Prop :=
  (m.map Prod.fst).Nodup ∧ ∀ p ∈ m, p.1 = p.2.username

/-- Key/record agreement alone (the part of wellformedness the username
claims are about). -/
def keyInvariant (s : UMState) : Prop :=
  ∀ p ∈ s.users, p.1 = p.2.username

/- Concrete states used by witnesses and counterexamples. -/

/-- A one-user demonstration registry. -/
def demoUser : User :=
  { username := "admin", password := "2977", displayName := "Amministratore",
    role := "admin", permissions := [], active := true, createdAt := 0,
    updatedAt := none }

/-- Demonstration state: the demo user registered, no session. -/
def demoState : UMState :=
  { users := [("admin", demoUser)], currentUser := none,
    storedUsers := .absent, storedSession := none }

/-- The pristine state of a fresh `UserManager` with empty storage. -/
def emptyState : UMState :=
  { users := [], currentUser := none, storedUsers := .absent,
    storedSession := none }

/- Association-list helper lemmas. -/

lemma lookup_eq_none_of_not_mem (m : List (String × User)) (k : String)
    (h : k ∉ m.map Prod.fst) : m.lookup k = none := by
  induction m with
  | nil => rfl
  | cons p rest ih =>
      obtain ⟨a, v⟩ := p
      simp only [List.map_cons, List.mem_cons, not_or] at h
      have hb : (k == a) = false := beq_eq_false_iff_ne.mpr h.1
      simp [List.lookup_cons, hb, ih h.2]

lemma mem_of_lookup_eq_some (m : List (String × User)) (k : String) (v : User)
    (h : m.lookup k = some v) : (k, v) ∈ m := by
  induction m with
  | nil => simp [List.lookup] at h
  | cons p rest ih =>
      obtain ⟨a, w⟩ := p
      rw [List.lookup_cons] at h
      by_cases hk : k = a
      · subst hk
        have hb : (k == k) = true := beq_iff_eq.mpr rfl
        rw [hb] at h
        cases h
        exact List.mem_cons_self _ _
      · have hb : (k == a) = false := beq_eq_false_iff_ne.mpr hk
        rw [hb] at h
        exact List.mem_cons_of_mem _ (ih h)

lemma lookup_append_of_none (m l : List (String × User)) (k : String)
    (h : m.lookup k = none) : (m ++ l).lookup k = l.lookup k := by
  induction m with
  | nil => simp
  | cons p rest ih =>
      obtain ⟨a, w⟩ := p
      rw [List.lookup_cons] at h
      cases hb : (k == a) with
      | true => rw [hb] at h; cases h
      | false =>
          rw [hb] at h
          simpa [List.lookup_cons, hb] using ih h

lemma lookup_singleton_self (k : String) (v : User) :
    ([(k, v)] : List (String × User)).lookup k = some v := by
  simp [List.lookup_cons]

/- `mapSet` helper lemmas. -/

lemma mapSet_of_lookup_none (m : List (String × User)) (k : String) (v : User)
    (h : m.lookup k = none) : mapSet m k v = m ++ [(k, v)] := by
  simp [mapSet, h]

lemma length_mapSet (m : List (String × User)) (k : String) (v : User) :
    (mapSet m k v).length =
      if (m.lookup k).isSome then m.length else m.length + 1 := by
  unfold mapSet
  split <;> simp [*]

lemma length_le_length_mapSet (m : List (String × User)) (k : String)
    (v : User) : m.length ≤ (mapSet m k v).length := by
  rw [length_mapSet]
  split <;> omega

lemma length_le_foldl_mapSet {α : Type} (l : List α) (key : α → String)
    (val : α → User) :
    ∀ acc : List (String × User),
      acc.length ≤ (l.foldl (fun a e => mapSet a (key e) (val e)) acc).length := by
  induction l with
  | nil => intro acc; simp
  | cons e rest ih =>
      intro acc
      calc acc.length ≤ (mapSet acc (key e) (val e)).length :=
            length_le_length_mapSet acc (key e) (val e)
        _ ≤ _ := ih (mapSet acc (key e) (val e))

lemma foldl_mapSet_length_pos {α : Type} (l : List α) (key : α → String)
    (val : α → User) (h : l ≠ []) :
    0 < (l.foldl (fun a e => mapSet a (key e) (val e)) []).length := by
  cases l with
  | nil => exact absurd rfl h
  | cons e rest =>
      simp only [List.foldl_cons]
      have h1 : 0 < (mapSet [] (key e) (val e)).length := by
        simp [mapSet]
      exact lt_of_lt_of_le h1 (length_le_foldl_mapSet rest key val _)

/-- Re-keying the value list of a well-formed association list by the
`username` field reproduces the list (the fold in `loadFromStore`). -/
lemma rekey_foldl_eq (l : List (String × User)) :
    ∀ acc : List (String × User),
      ((acc ++ l).map Prod.fst).Nodup →
      (∀ p ∈ acc ++ l, p.1 = p.2.username) →
      (l.map Prod.snd).foldl (fun a u => mapSet a u.username u) acc = acc ++ l := by
  induction l with
  | nil => intro acc _ _; simp
  | cons p rest ih =>
      intro acc hnodup hkeys
      have hp1 : p.1 = p.2.username := hkeys p (by simp)
      have hnotin : p.1 ∉ acc.map Prod.fst := by
        rw [List.map_append] at hnodup
        have hdisj := (List.nodup_append.mp hnodup).2.2
        intro hmem
        exact hdisj hmem (by simp)
      have hlook : acc.lookup p.2.username = none := by
        rw [← hp1]
        exact lookup_eq_none_of_not_mem acc p.1 hnotin
      have hstep : mapSet acc p.2.username p.2 = acc ++ [p] := by
        rw [mapSet_of_lookup_none acc _ _ hlook, ← hp1]
      simp only [List.map_cons, List.foldl_cons]
      rw [hstep]
      have hassoc : acc ++ [p] ++ rest = acc ++ p :: rest := by
        simp
      rw [ih (acc ++ [p]) (by rw [hassoc]; exact hnodup)
            (by rw [hassoc]; exact hkeys), hassoc]

/- Further concrete states for witnesses and counterexamples. -/

/-- A stored session expiring at time 100. -/
def demoSession : Session :=
  { username := "admin", displayName := "Amministratore", role := "admin",
    loginTime := 0, expiresAt := 100 }

/-- State whose only content is `demoSession` in the session storage slot. -/
def sesState : UMState :=
  { users := [], currentUser := none, storedUsers := .absent,
    storedSession := some demoSession }

/-- `demoSession` as extended by a successful validation at time 50. -/
def extSession50 : Session :=
  { demoSession with expiresAt := 50 + sessionDuration }

/-- `demoSession` as extended by a successful validation at time 60. -/
def extSession60 : Session :=
  { demoSession with expiresAt := 60 + sessionDuration }

/-- Any session stored by a successful validation at time `now` carries the
expiry `now + sessionDuration`. -/
lemma validate_expiry (s : UMState) (now : Nat) (sess : Session)
    (hv : (isSessionValid s now).1 = true)
    (h : (isSessionValid s now).2.storedSession = some sess) :
    sess.expiresAt = now + sessionDuration := by
  cases hss : s.storedSession with
  | none => simp [isSessionValid, hss] at hv
  | some sess0 =>
      by_cases hexp : sess0.expiresAt < now
      · simp [isSessionValid, hss, hexp] at hv
      · simp only [isSessionValid, hss, if_neg hexp] at h
        cases h
        rfl

/-- C1: `authenticate` fails with the user-not-found message when the username
is unregistered, with the user-inactive message when the user exists but is
inactive, and with the wrong-password message when the stored password differs
from the supplied one under direct string equality; every failure returns the
state unchanged (so with no stored session, `getCurrentUser` still yields
nothing); on success the issued session snapshot is cached, persisted and
returned. -/
theorem C1_authenticate_spec (s : UMState) (username password : String)
    (now : Nat) :
    (s.users.lookup username = none →
      authenticate s username password now = (.error "Utente non trovato", s)) ∧
    (∀ user, s.users.lookup username = some user → user.active = false →
      authenticate s username password now = (.error "Utente disattivato", s)) ∧
    (∀ user, s.users.lookup username = some user → user.active = true →
      user.password ≠ password →
      authenticate s username password now = (.error "Password errata", s)) ∧
    (∀ user, s.users.lookup username = some user → user.active = true →
      user.password = password →
      authenticate s username password now =
        (.ok (issuedSession user now),
         { s with currentUser := some (issuedSession user now),
                  storedSession := some (issuedSession user now) })) ∧
    (∀ msg, (authenticate s username password now).1 = .error msg →
      (authenticate s username password now).2 = s) ∧
    (s.storedSession = none → ∀ t, (getCurrentUser s t).1 = none) := by
  refine ⟨?_, ?_, ?_, ?_, ?_, ?_⟩
  · intro h
    simp [authenticate, h]
  · intro user h ha
    simp [authenticate, h, ha]
  · intro user h ha hp
    simp [authenticate, h, ha, hp]
  · intro user h ha hp
    simp [authenticate, h, ha, hp]
  · intro msg hmsg
    cases hl : s.users.lookup username with
    | none => simp [authenticate, hl]
    | some user =>
        by_cases ha : user.active = false
        · simp [authenticate, hl, ha]
        · by_cases hp : user.password = password
          · simp [authenticate, hl, ha, hp] at hmsg
          · simp [authenticate, hl, ha, hp]
  · intro h t
    simp [getCurrentUser, isSessionValid, h]

/-- C1 witness: concrete failing and trivial-session cases at the demo
state. -/
theorem C1_witness :
    authenticate demoState "ghost" "x" 5 = (.error "Utente non trovato", demoState) ∧
    authenticate demoState "admin" "wrong" 5 = (.error "Password errata", demoState) ∧
    (getCurrentUser demoState 5).1 = none :=
  ⟨(C1_authenticate_spec demoState "ghost" "x" 5).1 (by decide),
   (C1_authenticate_spec demoState "admin" "wrong" 5).2.2.1 demoUser (by decide)
     (by decide) (by decide),
   (C1_authenticate_spec demoState "x" "y" 0).2.2.2.2.2 rfl 5⟩

/-- C2: `isSessionValid` with no persisted session returns invalid and leaves
the state alone; with the clock strictly past the stored expiry it clears both
the persisted session and the cache and returns invalid; otherwise it returns
valid, sets the expiry to exactly `now + sessionDuration` (24 hours in
milliseconds), re-persists and re-caches; hence two successive successful
validations at non-decreasing clock values yield non-decreasing absolute
expiry times. -/
theorem C2_validate_spec (s : UMState) (now : Nat) :
    sessionDuration = 24 * 60 * 60 * 1000 ∧
    (s.storedSession = none → isSessionValid s now = (false, s)) ∧
    (∀ sess, s.storedSession = some sess → sess.expiresAt < now →
      isSessionValid s now =
        (false, { s with currentUser := none, storedSession := none })) ∧
    (∀ sess, s.storedSession = some sess → now ≤ sess.expiresAt →
      isSessionValid s now =
        (true,
         { s with
             storedSession := some { sess with expiresAt := now + sessionDuration },
             currentUser := some { sess with expiresAt := now + sessionDuration } })) ∧
    (∀ t2 sess1 sess2, now ≤ t2 →
      (isSessionValid s now).1 = true →
      (isSessionValid s now).2.storedSession = some sess1 →
      (isSessionValid (isSessionValid s now).2 t2).1 = true →
      (isSessionValid (isSessionValid s now).2 t2).2.storedSession = some sess2 →
      sess1.expiresAt ≤ sess2.expiresAt) := by
  refine ⟨rfl, ?_, ?_, ?_, ?_⟩
  · intro h
    simp [isSessionValid, h]
  · intro sess h hexp
    simp [isSessionValid, logout, h, hexp]
  · intro sess h hexp
    have hlt : ¬ sess.expiresAt < now := by omega
    simp [isSessionValid, h, hlt]
  · intro t2 sess1 sess2 h12 hv1 hs1 hv2 hs2
    have e1 := validate_expiry s now sess1 hv1 hs1
    have e2 := validate_expiry (isSessionValid s now).2 t2 sess2 hv2 hs2
    omega

/-- C2 witness: validating the demo session at time 50, then at time 60. -/
theorem C2_witness :
    isSessionValid sesState 50 =
      (true, { sesState with storedSession := some extSession50,
                             currentUser := some extSession50 }) ∧
    extSession50.expiresAt ≤ extSession60.expiresAt :=
  ⟨(C2_validate_spec sesState 50).2.2.2.1 demoSession rfl (by decide),
   (C2_validate_spec sesState 50).2.2.2.2 60 extSession50 extSession60
     (by decide) rfl rfl rfl rfl⟩

/-- C9 counterexample: with the stored session expiring exactly at the current
instant, the code reports the session valid — `now > expiresAt` is false at
`now = expiresAt` — refuting the claim that the session is invalid there. -/
theorem C9_counterexample :
    sesState.storedSession = some demoSession ∧
    demoSession.expiresAt = 100 ∧
    (isSessionValid sesState 100).1 = true :=
  ⟨rfl, rfl, rfl⟩

/-- C9 amended: a session is valid iff one is persisted and the current time
is at most (not strictly below) its expiry: validity uses `now > expiresAt`
for invalidity, so the exact expiry instant still counts as valid. -/
theorem C9_valid_iff (s : UMState) (now : Nat) :
    (isSessionValid s now).1 = true ↔
      ∃ sess, s.storedSession = some sess ∧ now ≤ sess.expiresAt := by
  cases hss : s.storedSession with
  | none => simp [isSessionValid, hss]
  | some sess =>
      by_cases h : sess.expiresAt < now
      · simp [isSessionValid, hss, h]
      · simp [isSessionValid, hss, h]
        omega

/-- C8: from the pristine state, with the bootstrap fetch failing and the
persisted store absent, `loadUsers` leaves exactly one user: the active
default administrator. -/
theorem C8_default_seed (now : Nat) :
    (loadUsers emptyState .networkError now).users =
      [("admin", defaultAdmin now)] ∧
    (loadUsers emptyState .networkError now).users.length = 1 ∧
    (defaultAdmin now).username = "admin" ∧
    (defaultAdmin now).role = "admin" ∧
    (defaultAdmin now).active = true :=
  ⟨rfl, rfl, rfl, rfl, rfl⟩

/-- `addUser` on a present username fails with the duplicate message and
leaves the state untouched. -/
lemma addUser_of_present (s : UMState) (d : UserData) (now : Nat)
    (h : (s.users.lookup d.username).isSome = true) :
    addUser s d now = (.error "Utente già esistente", s) := by
  simp [addUser, h]

/-- After any `addUser` call, the username of the request is present. -/
lemma addUser_present_after (s : UMState) (d : UserData) (now : Nat) :
    (((addUser s d now).2.users.lookup d.username).isSome = true) := by
  cases hx : s.users.lookup d.username with
  | some v =>
      have h : (s.users.lookup d.username).isSome = true := by simp [hx]
      rw [addUser_of_present s d now h]
      simp [hx]
  | none =>
      simp only [addUser, hx, Option.isSome_none, Bool.false_eq_true,
        if_false, saveUsers]
      rw [mapSet_of_lookup_none _ _ _ hx,
        lookup_append_of_none _ _ _ hx, lookup_singleton_self]
      rfl

/-- C6: `addUser` with an already-registered username returns the duplicate
message and the unchanged state (so the registry size is unchanged); calling
it twice with the same username makes the second call fail this way with the
size equal to the size after the first call; with a fresh username it appends
a record with `active = true` and `createdAt = now`, persists, and returns the
record. -/
theorem C6_addUser_spec (s : UMState) (d : UserData) (now now2 : Nat) :
    ((s.users.lookup d.username).isSome = true →
      addUser s d now = (.error "Utente già esistente", s)) ∧
    (s.users.lookup d.username = none →
      addUser s d now =
        (.ok (freshUser d now),
         saveUsers { s with users := s.users ++ [(d.username, freshUser d now)] })) ∧
    (freshUser d now).active = true ∧
    (freshUser d now).createdAt = now ∧
    (addUser (addUser s d now).2 d now2 =
      (.error "Utente già esistente", (addUser s d now).2)) ∧
    ((addUser (addUser s d now).2 d now2).2.users.length =
      (addUser s d now).2.users.length) := by
  refine ⟨addUser_of_present s d now, ?_, rfl, rfl, ?_, ?_⟩
  · intro h
    simp [addUser, h, mapSet_of_lookup_none _ _ _ h]
  · exact addUser_of_present _ d now2 (addUser_present_after s d now)
  · rw [addUser_of_present _ d now2 (addUser_present_after s d now)]

/-- Input data colliding with the demo user. -/
def dupData : UserData :=
  { username := "admin", password := "x", displayName := "X", role := "user",
    permissions := [] }

/-- Input data for a fresh registration. -/
def marioData : UserData :=
  { username := "mario", password := "pw", displayName := "Mario",
    role := "user", permissions := [] }

/-- C6 witness: a duplicate insertion at the demo state, and a fresh one. -/
theorem C6_witness :
    addUser demoState dupData 7 = (.error "Utente già esistente", demoState) ∧
    addUser demoState marioData 7 =
      (.ok (freshUser marioData 7),
       saveUsers { demoState with
         users := demoState.users ++ [("mario", freshUser marioData 7)] }) :=
  ⟨(C6_addUser_spec demoState dupData 7 0).1 (by decide),
   (C6_addUser_spec demoState marioData 7 0).2.1 (by decide)⟩

/-- The localStorage fallback path always yields a non-empty registry. -/
lemma loadFromStore_nonempty (s : UMState) (now : Nat) :
    0 < (loadFromStore s now).users.length := by
  cases hsu : s.storedUsers with
  | good records =>
      simp only [loadFromStore, hsu]
      by_cases hm :
          (records.foldl (fun acc u => mapSet acc u.username u) []).length = 0
      · simp [hm, initializeDefaultUsers, saveUsers]
      · simp only [hm, if_false]
        omega
  | absent => simp [loadFromStore, hsu, initializeDefaultUsers, saveUsers]
  | corrupt => simp [loadFromStore, hsu, initializeDefaultUsers, saveUsers]

/-- C3 counterexample: a successful bootstrap fetch whose payload maps no
users empties the registry — `loadUsers` returns with zero users even from a
non-empty starting registry, refuting the unconditional at-least-one-user
postcondition. -/
theorem C3_counterexample :
    (loadUsers demoState (.ok []) 3).users = [] ∧ demoState.users ≠ [] :=
  ⟨rfl, by decide⟩

/-- C3 amended: after `loadUsers` the registry contains at least one user for
every outcome except a successful fetch with an empty users payload — the ok
path replaces the registry wholesale with the payload entries and returns
before any emptiness check. -/
theorem C3_load_nonempty (s : UMState) (outcome : FetchOutcome) (now : Nat)
    (h : ∀ entries, outcome = .ok entries → entries ≠ []) :
    0 < (loadUsers s outcome now).users.length := by
  cases outcome with
  | ok entries =>
      have hne : entries ≠ [] := h entries rfl
      simp only [loadUsers, saveUsers]
      exact foldl_mapSet_length_pos entries Prod.fst
        (fun e => bootstrapRecord e.1 e.2 now) hne
  | badPayload => exact loadFromStore_nonempty s now
  | httpError => exact loadFromStore_nonempty s now
  | networkError => exact loadFromStore_nonempty s now

/-- C3 witness: a failing bootstrap at the demo state keeps the registry
non-empty. -/
theorem C3_witness : 0 < (loadUsers demoState .networkError 7).users.length :=
  C3_load_nonempty demoState .networkError 7 (by intro entries h; cases h)

/- States for the listing claims: an admin session over a registry holding a
user with (respectively without) a permission string. -/

/-- The session of the listing scenarios. -/
def adminSession : Session :=
  { username := "admin", displayName := "Amministratore", role := "admin",
    loginTime := 0, expiresAt := 1000 }

/-- A non-admin user carrying one permission string. -/
def permUserA : User :=
  { username := "mario", password := "pw", displayName := "Mario",
    role := "user", permissions := ["sign"], active := true, createdAt := 0,
    updatedAt := none }

/-- The same user with no permissions. -/
def permUserB : User :=
  { username := "mario", password := "pw", displayName := "Mario",
    role := "user", permissions := [], active := true, createdAt := 0,
    updatedAt := none }

/-- Admin-session state over the registry holding `permUserA`. -/
def adminStateA : UMState :=
  { users := [("mario", permUserA)], currentUser := some adminSession,
    storedUsers := .absent, storedSession := some adminSession }

/-- Admin-session state over the registry holding `permUserB`. -/
def adminStateB : UMState :=
  { users := [("mario", permUserB)], currentUser := some adminSession,
    storedUsers := .absent, storedSession := some adminSession }

/-- `adminSession` as refreshed by a validation at time 10. -/
def extAdminSession : Session :=
  { adminSession with expiresAt := 10 + sessionDuration }

/-- C4 counterexample: two registries whose sole records differ only in the
`permissions` field produce identical `getAllUsers` listings — the projection
drops `permissions`, so the entries are not the records with only the
password removed. -/
theorem C4_counterexample :
    (getAllUsers adminStateA 10).1 = (getAllUsers adminStateB 10).1 ∧
    specRedact permUserA ≠ specRedact permUserB ∧
    permUserA.password = permUserB.password :=
  ⟨rfl, by decide, rfl⟩

/-- C4 amended: `getAllUsers` fails with the access-denied message whenever
the current session is missing, invalid, or non-admin; for a valid admin
session it returns one entry per registered user containing exactly the six
fields username, displayName, role, active, createdAt, updatedAt — both the
password and the permissions fields are removed. -/
theorem C4_getAllUsers_spec (s : UMState) (now : Nat) :
    ((getCurrentUser s now).1 = none →
      getAllUsers s now = (.error "Accesso negato", (getCurrentUser s now).2)) ∧
    (∀ cu, (getCurrentUser s now).1 = some cu → cu.role ≠ "admin" →
      getAllUsers s now = (.error "Accesso negato", (getCurrentUser s now).2)) ∧
    (∀ cu, (getCurrentUser s now).1 = some cu → cu.role = "admin" →
      getAllUsers s now =
        (.ok ((getCurrentUser s now).2.users.map (fun p => publicView p.2)),
         (getCurrentUser s now).2)) ∧
    (∀ user, publicView user =
      { username := user.username, displayName := user.displayName,
        role := user.role, active := user.active,
        createdAt := user.createdAt, updatedAt := user.updatedAt }) := by
  refine ⟨?_, ?_, ?_, fun user => rfl⟩
  · intro h
    simp [getAllUsers, h]
  · intro cu h hr
    simp [getAllUsers, h, hr]
  · intro cu h hr
    simp [getAllUsers, h, hr]

/-- C4 witness: a valid admin session lists the registry through the
six-field projection. -/
theorem C4_witness :
    getAllUsers adminStateA 10 =
      (.ok [publicView permUserA], (getCurrentUser adminStateA 10).2) :=
  (C4_getAllUsers_spec adminStateA 10).2.2.1 extAdminSession rfl rfl

/-- `mapSet` preserves key/record-username agreement when the inserted value
is keyed by its own username. -/
lemma mapSet_keyInv (m : List (String × User)) (k : String) (v : User)
    (hm : ∀ p ∈ m, p.1 = p.2.username) (hv : k = v.username) :
    ∀ p ∈ mapSet m k v, p.1 = p.2.username := by
  intro p hp
  unfold mapSet at hp
  split at hp
  · rw [List.mem_map] at hp
    obtain ⟨q, hq, hpq⟩ := hp
    by_cases hqk : q.1 = k
    · rw [if_pos hqk] at hpq
      subst hpq
      exact hv
    · rw [if_neg hqk] at hpq
      subst hpq
      exact hm q hq
  · rw [List.mem_append] at hp
    cases hp with
    | inl h => exact hm p h
    | inr h =>
        rw [List.mem_singleton] at h
        subst h
        exact hv

/-- A patch without a `username` field leaves the merged record's username
unchanged. -/
lemma applyPatch_username (user : User) (patch : UserPatch) (now : Nat)
    (h : patch.username = none) :
    (applyPatch user patch now).username = user.username := by
  simp [applyPatch, h]

/-- `updateUser` with a username-free patch preserves key/record-username
agreement. -/
lemma updateUser_keyInv (s : UMState) (u : String) (patch : UserPatch)
    (now : Nat) (hs : keyInvariant s) (hp : patch.username = none) :
    keyInvariant (updateUser s u patch now).2 := by
  cases hl : s.users.lookup u with
  | none =>
      simp only [updateUser, hl]
      exact hs
  | some user =>
      simp only [updateUser, hl, saveUsers]
      intro p hpmem
      have hu : u = user.username :=
        hs (u, user) (mem_of_lookup_eq_some s.users u user hl)
      have hv : u = (applyPatch user patch now).username := by
        rw [applyPatch_username user patch now hp]
        exact hu
      exact mapSet_keyInv s.users u (applyPatch user patch now) hs hv p hpmem

/-- The patch used by `C5_counterexample`: a shallow-merge update carrying a
new `username`. -/
def renamePatch : UserPatch :=
  { emptyPatch with username := some "evil" }

/-- C5 counterexample: `updateUser` with a patch that carries a `username`
field rewrites the stored record's username while the record stays under its
old key — the username of an existing record is not immutable, and the
key/field agreement breaks. -/
theorem C5_counterexample :
    (updateUser demoState "admin" renamePatch 3).2.users.lookup "admin" =
      some { demoUser with username := "evil", updatedAt := some 3 } ∧
    ("evil" : String) ≠ "admin" :=
  ⟨rfl, by decide⟩

/-- C5 amended: the key/record-username invariant is preserved by `addUser`,
`activateUser`, `deactivateUser`, `changePassword`, and by `updateUser`
whenever the patch carries no `username` field — such patches never alter the
record's username; a patch that does carry one overwrites it (the shallow
merge imposes no immutability). -/
theorem C5_username_invariant (s : UMState) (now : Nat)
    (hs : keyInvariant s) :
    (∀ user patch, patch.username = none →
      (applyPatch user patch now).username = user.username) ∧
    (∀ d : UserData, keyInvariant (addUser s d now).2) ∧
    (∀ u patch, patch.username = none →
      keyInvariant (updateUser s u patch now).2) ∧
    (∀ u, keyInvariant (activateUser s u now).2) ∧
    (∀ u, keyInvariant (deactivateUser s u now).2) ∧
    (∀ u oldP newP, keyInvariant (changePassword s u oldP newP now).2) := by
  refine ⟨fun user patch h => applyPatch_username user patch now h, ?_,
    fun u patch h => updateUser_keyInv s u patch now hs h,
    fun u => updateUser_keyInv s u { emptyPatch with active := some true } now hs rfl,
    fun u => updateUser_keyInv s u { emptyPatch with active := some false } now hs rfl, ?_⟩
  · intro d
    cases hx : s.users.lookup d.username with
    | some v =>
        rw [addUser_of_present s d now (by simp [hx])]
        exact hs
    | none =>
        simp only [addUser, hx, Option.isSome_none, Bool.false_eq_true,
          if_false, saveUsers]
        intro p hpmem
        exact mapSet_keyInv s.users d.username (freshUser d now) hs rfl p hpmem
  · intro u oldP newP
    unfold changePassword
    cases hl : s.users.lookup u with
    | none => exact hs
    | some user =>
        dsimp only
        by_cases hpw : user.password ≠ oldP
        · rw [if_pos hpw]
          exact hs
        · rw [if_neg hpw]
          exact updateUser_keyInv s u
            { emptyPatch with password := some newP } now hs rfl

/-- The demo registry satisfies the key invariant. -/
lemma demoState_keyInv : keyInvariant demoState := by
  intro p hp
  simp only [demoState, List.mem_singleton] at hp
  subst hp
  rfl

/-- C5 witness: the invariant facts at the demo state and its deactivation
patch. -/
theorem C5_witness :
    (applyPatch demoUser { emptyPatch with active := some false } 3).username =
      demoUser.username ∧
    keyInvariant (deactivateUser demoState "admin" 3).2 :=
  ⟨(C5_username_invariant demoState 3 demoState_keyInv).1 demoUser
     { emptyPatch with active := some false } rfl,
   (C5_username_invariant demoState 3 demoState_keyInv).2.2.2.2.1 "admin"⟩

/-- C7 counterexample: from the pristine empty registry, `save()` then
`load()` with the bootstrap unreachable does not reproduce the empty record
set — loading the persisted empty array seeds the default administrator. -/
theorem C7_counterexample :
    (loadUsers (saveUsers emptyState) .networkError 5).users =
      [("admin", defaultAdmin 5)] ∧
    emptyState.users = [] :=
  ⟨rfl, rfl⟩

/-- C7 amended: for every non-empty registry state satisfying the map
representation invariants (distinct keys, each record stored under its own
username), `save()` followed by `load()` with the bootstrap fetch failing
reproduces the registry exactly, field-for-field. -/
theorem C7_roundtrip (s : UMState) (now : Nat)
    (hnodup : (s.users.map Prod.fst).Nodup)
    (hkeys : ∀ p ∈ s.users, p.1 = p.2.username)
    (hne : s.users ≠ []) :
    (loadUsers (saveUsers s) .networkError now).users = s.users := by
  have hrekey : (s.users.map Prod.snd).foldl
      (fun acc u => mapSet acc u.username u) [] = s.users := by
    simpa using rekey_foldl_eq s.users [] (by simpa using hnodup)
      (by simpa using hkeys)
  have hlen : ¬ s.users.length = 0 := by
    simpa [List.length_eq_zero] using hne
  show (loadFromStore (saveUsers s) now).users = s.users
  simp only [loadFromStore, saveUsers]
  rw [hrekey, if_neg hlen]

/-- C7 witness: the round trip at the demo state. -/
theorem C7_witness :
    (loadUsers (saveUsers demoState) .networkError 9).users = demoState.users :=
  C7_roundtrip demoState 9 (by decide) demoState_keyInv (by decide)

/-- `updateUser` never touches the cached or the persisted session. -/
lemma updateUser_session_frame (s : UMState) (u : String) (patch : UserPatch)
    (now : Nat) :
    (updateUser s u patch now).2.storedSession = s.storedSession ∧
    (updateUser s u patch now).2.currentUser = s.currentUser := by
  unfold updateUser
  cases hl : s.users.lookup u with
  | none => exact ⟨rfl, rfl⟩
  | some user => exact ⟨rfl, rfl⟩

/-- The valid bit of `isSessionValid` depends only on the stored session. -/
lemma isSessionValid_fst_congr (s1 s2 : UMState) (t : Nat)
    (h : s1.storedSession = s2.storedSession) :
    (isSessionValid s1 t).1 = (isSessionValid s2 t).1 := by
  unfold isSessionValid
  rw [h]
  cases s2.storedSession with
  | none => rfl
  | some sess => by_cases hc : sess.expiresAt < t <;> simp [hc]

/-- Closed form of the session returned by `getCurrentUser`. -/
lemma getCurrentUser_fst (s : UMState) (t : Nat) :
    (getCurrentUser s t).1 =
      (match s.storedSession with
       | none => none
       | some sess =>
           if sess.expiresAt < t then none
           else some { sess with expiresAt := t + sessionDuration }) := by
  cases hss : s.storedSession with
  | none => simp [getCurrentUser, isSessionValid, hss]
  | some sess =>
      by_cases hc : sess.expiresAt < t <;>
        simp [getCurrentUser, isSessionValid, hss, hc]

/-- The session returned by `getCurrentUser` depends only on the stored
session. -/
lemma getCurrentUser_fst_congr (s1 s2 : UMState) (t : Nat)
    (h : s1.storedSession = s2.storedSession) :
    (getCurrentUser s1 t).1 = (getCurrentUser s2 t).1 := by
  rw [getCurrentUser_fst, getCurrentUser_fst, h]

/-- The answer of `hasRole` depends only on the stored session. -/
lemma hasRole_fst_congr (s1 s2 : UMState) (r : String) (t : Nat)
    (h : s1.storedSession = s2.storedSession) :
    (hasRole s1 r t).1 = (hasRole s2 r t).1 := by
  show (match (getCurrentUser s1 t).1 with
        | some cu => cu.role == r
        | none => false) =
       (match (getCurrentUser s2 t).1 with
        | some cu => cu.role == r
        | none => false)
  rw [getCurrentUser_fst_congr s1 s2 t h]

/-- C10: `deactivateUser` leaves both the cached and the persisted session
untouched, so at any later clock value the session's validity, the current
user, `hasRole`, and `isAdmin` answer exactly as before; and session validity
never consults the registry — replacing the whole users map does not change
the valid bit. -/
theorem C10_deactivate_frame (s : UMState) (u : String) (now t : Nat)
    (r : String) (m : List (String × User)) :
    (deactivateUser s u now).2.storedSession = s.storedSession ∧
    (deactivateUser s u now).2.currentUser = s.currentUser ∧
    (isSessionValid (deactivateUser s u now).2 t).1 = (isSessionValid s t).1 ∧
    (getCurrentUser (deactivateUser s u now).2 t).1 = (getCurrentUser s t).1 ∧
    (hasRole (deactivateUser s u now).2 r t).1 = (hasRole s r t).1 ∧
    (isAdmin (deactivateUser s u now).2 t).1 = (isAdmin s t).1 ∧
    (isSessionValid { s with users := m } t).1 = (isSessionValid s t).1 := by
  have hframe :=
    updateUser_session_frame s u { emptyPatch with active := some false } now
  exact ⟨hframe.1, hframe.2,
    isSessionValid_fst_congr _ s t hframe.1,
    getCurrentUser_fst_congr _ s t hframe.1,
    hasRole_fst_congr _ s r t hframe.1,
    hasRole_fst_congr _ s "admin" t hframe.1,
    isSessionValid_fst_congr { s with users := m } s t rfl⟩
